import Mathlib

/-!
Verification of the core of the `embedded-error-chain` crate.

The development shallowly embeds the crate's runtime core:

* `src/error_data.rs` — the bit-packed `ErrorData` record (a `u32` holding five
  4-bit error codes and four 3-bit biased link-table indices) and its chain
  iterator.  Machine integers are modelled as `Nat` with explicit masking and,
  where a `u32` shift can drop high bits, an explicit `% 2^32`.
* `src/error_category.rs` — categories, formatter dispatch and handles.  A
  formatter function is monomorphised per category, so its address is a unique
  runtime token for the category; we model a formatter pointer as the numeric
  identity of its category.  An environment maps those identities to the
  category's data (name, link table, per-code debug rendering).
* `src/error.rs` — the typed `Error` wrapper (its record is just the packed
  word; the category is a phantom type, carried here as an explicit argument)
  and the `ErrorIter` iteration.
* `src/dyn_error.rs` — the type-erased `DynError` (record plus formatter
  pointer), `try_chain`, `try_into` and the `Debug` rendering walk.
-/

namespace EEC

/-! ## Bit-manipulation bridge lemmas

These translate the masked/shifted `u32` operations of `error_data.rs` into
division/remainder arithmetic that `omega` can reason about. -/

theorem lor_mod_two_pow (a b k : Nat) : (a ||| b) % 2^k = a % 2^k ||| b % 2^k := by
  apply Nat.eq_of_testBit_eq
  intro i
  simp only [Nat.testBit_mod_two_pow, Nat.testBit_lor]
  cases Nat.decLt i k with
  | isTrue h => simp [h]
  | isFalse h => simp [h]

theorem lor_div_two_pow (a b k : Nat) : (a ||| b) / 2^k = a / 2^k ||| b / 2^k := by
  rw [← Nat.shiftRight_eq_div_pow, ← Nat.shiftRight_eq_div_pow, ← Nat.shiftRight_eq_div_pow]
  apply Nat.eq_of_testBit_eq
  intro i
  simp [Nat.testBit_shiftRight, Nat.testBit_lor]

theorem lor_zero' (a : Nat) : a ||| 0 = a := by
  apply Nat.eq_of_testBit_eq
  intro i
  simp [Nat.testBit_lor]

theorem zero_lor' (a : Nat) : 0 ||| a = a := by
  apply Nat.eq_of_testBit_eq
  intro i
  simp [Nat.testBit_lor]

theorem mul_pow_lor_add (x y k : Nat) (hy : y < 2^k) : x * 2^k ||| y = x * 2^k + y := by
  have key := Nat.div_add_mod (x * 2^k ||| y) (2^k)
  have hd : (x * 2^k ||| y) / 2^k = x := by
    rw [lor_div_two_pow, Nat.mul_div_cancel _ (Nat.two_pow_pos k), Nat.div_eq_of_lt hy, lor_zero']
  have hm : (x * 2^k ||| y) % 2^k = y := by
    rw [lor_mod_two_pow, Nat.mul_mod_left, Nat.mod_eq_of_lt hy, zero_lor']
  rw [hd, hm] at key
  rw [← key, Nat.mul_comm]

theorem and_mask_shift (x j k : Nat) : x &&& ((2^j - 1) <<< k) = (x / 2^k % 2^j) * 2^k := by
  rw [← Nat.shiftLeft_eq, ← Nat.shiftRight_eq_div_pow]
  apply Nat.eq_of_testBit_eq
  intro i
  simp only [Nat.testBit_land, Nat.testBit_shiftLeft, Nat.testBit_shiftRight,
    Nat.testBit_mod_two_pow, Nat.testBit_two_pow_sub_one]
  by_cases hk : k ≤ i
  · have hik : k + (i - k) = i := by omega
    simp [ge_iff_le, hk, hik]
    by_cases hj : i - k < j <;> simp [hj, Bool.and_comm]
  · simp [ge_iff_le, hk]

theorem and_mod_two_pow (x j : Nat) : x &&& (2^j - 1) = x % 2^j :=
  Nat.and_pow_two_sub_one_eq_mod x j

theorem and_15 (x : Nat) : x &&& 15 = x % 16 := by
  have h := and_mod_two_pow x 4
  norm_num at h
  exact h

theorem and_7 (x : Nat) : x &&& 7 = x % 8 := by
  have h := and_mod_two_pow x 3
  norm_num at h
  exact h

theorem and_codes (x : Nat) : x &&& 0x000fffff = x % 1048576 := by
  have h := and_mod_two_pow x 20
  norm_num at h ⊢
  exact h

theorem and_fmt0 (x : Nat) : x &&& 0x00700000 = x / 1048576 % 8 * 1048576 := by
  have h := and_mask_shift x 3 20
  norm_num at h ⊢
  exact h

theorem and_fmt1 (x : Nat) : x &&& 0x03800000 = x / 8388608 % 8 * 8388608 := by
  have h := and_mask_shift x 3 23
  norm_num at h ⊢
  exact h

theorem and_fmt2 (x : Nat) : x &&& 0x1c000000 = x / 67108864 % 8 * 67108864 := by
  have h := and_mask_shift x 3 26
  norm_num at h ⊢
  exact h

theorem and_fmt3 (x : Nat) : x &&& 0xe0000000 = x / 536870912 % 8 * 536870912 := by
  have h := and_mask_shift x 3 29
  norm_num at h ⊢
  exact h

theorem and_allfmt (x : Nat) : x &&& 0xfff00000 = x / 1048576 % 4096 * 1048576 := by
  have h := and_mask_shift x 12 20
  norm_num at h ⊢
  exact h

theorem and_code4 (x : Nat) : x &&& 0x000f0000 = x / 65536 % 16 * 65536 := by
  have h := and_mask_shift x 4 16
  norm_num at h ⊢
  exact h

theorem and_notcode0 (x : Nat) : x &&& 0xfffffff0 = x / 16 % 268435456 * 16 := by
  have h := and_mask_shift x 28 4
  norm_num at h ⊢
  exact h

/-! ## The packed chain record (`src/error_data.rs`)

Field layout of the `u32` word `data`: bits 0..20 hold five 4-bit error codes
(current code first, then chained codes 0..3, oldest last); bits 20..32 hold
four 3-bit formatter indices stored biased by +1, 0 meaning absent. -/

/-- Maximum number of chained error codes (`ERROR_CHAIN_LEN`). -/
def ERROR_CHAIN_LEN : Nat := 4

/-- Masks of the five 4-bit error-code fields (`consts::CODE_MASK`). -/
def CODE_MASK : Nat → Nat
  | 0 => 0x0000000f
  | 1 => 0x000000f0
  | 2 => 0x00000f00
  | 3 => 0x0000f000
  | _ => 0x000f0000

/-- Mask of all five error-code fields (`consts::ALL_CODE_MASK`). -/
def ALL_CODE_MASK : Nat := 0x000fffff

/-- Width in bits of one error code (`consts::CODE_WIDTH`). -/
def CODE_WIDTH : Nat := 4

/-- Truncate a value to an error code (`consts::make_code`); the source casts a
`u8` to `u32` after masking with `0b1111`, which the mask alone captures. -/
def make_code (value : Nat) : Nat := value &&& 0b1111

/-- Masks of the four 3-bit formatter-index fields (`consts::FORMATTER_MASK`). -/
def FORMATTER_MASK : Nat → Nat
  | 0 => 0x00700000
  | 1 => 0x03800000
  | 2 => 0x1c000000
  | _ => 0xe0000000

/-- Mask of all four formatter-index fields (`consts::ALL_FORMATTER_MASK`). -/
def ALL_FORMATTER_MASK : Nat := 0xfff00000

/-- Bit offset of the first formatter index (`consts::FORMATTER_BITOFFSET`). -/
def FORMATTER_BITOFFSET : Nat := 20

/-- Width in bits of one formatter index (`consts::FORMATTER_IDX_WIDTH`). -/
def FORMATTER_IDX_WIDTH : Nat := 3

/-- Truncate a value to a 3-bit formatter-index field (`consts::make_formatter_idx`);
the source masks a `u8` with `0b0111`, and masking with 7 commutes with the
implicit `u8` truncation. -/
def make_formatter_idx (value : Nat) : Nat := value &&& 0b0111

/-! The packed error record is the `data : u32` of `ErrorData`, modelled as a
natural number below `2^32`; the `ErrorData` operations below take it as a
plain `Nat`. -/

/-- Create a record with the supplied code and an empty chain (`ErrorData::new`). -/
def ErrorData.new (error_code : Nat) : Nat :=
  error_code &&& CODE_MASK 0

/-- Replace the current error code, returning the new record together with the
old code (`ErrorData::set_code`; the source mutates in place and returns the
old code).  `0xfffffff0` is the `u32` complement of `CODE_MASK 0`, and the
`d % 256` models the `self.data as u8` cast. -/
def ErrorData.set_code (d : Nat) (code : Nat) : Nat × Nat :=
  let old_ec := make_code (d % 256)
  ((d &&& 0xfffffff0) ||| make_code code, old_ec)

/-- Get the most recent error code (`ErrorData::code`). -/
def ErrorData.code (d : Nat) : Nat :=
  d &&& CODE_MASK 0

/-- Get the first formatter index in the chain if available
(`ErrorData::first_formatter_index`). -/
def ErrorData.first_formatter_index (d : Nat) : Option Nat :=
  let fmt_index := (d &&& FORMATTER_MASK 0) >>> FORMATTER_BITOFFSET
  if fmt_index > 0 then some (fmt_index - 1) else none

/-- Number of chained error codes (`ErrorData::chain_len`).  The source scans
the four formatter-index fields front to back with a mask that starts at
`FORMATTER_MASK 0` and is shifted left by `FORMATTER_IDX_WIDTH` per step, so
the mask of step `k` is `FORMATTER_MASK k`; the loop is unrolled here. -/
def ErrorData.chain_len (d : Nat) : Nat :=
  if d &&& FORMATTER_MASK 0 = 0 then 0
  else if d &&& FORMATTER_MASK 1 = 0 then 1
  else if d &&& FORMATTER_MASK 2 = 0 then 2
  else if d &&& FORMATTER_MASK 3 = 0 then 3
  else ERROR_CHAIN_LEN

/-- Prepend the current error code to the front of the chain and install
`error_code` as the new current code (`ErrorData::push_front`).  Returns the
updated record and, if the chain was full (last formatter-index field
non-zero), the evicted back entry with its index un-biased by 1.  The two
`% 2^32` record the truncating `u32` left shifts. -/
def ErrorData.push_front (d : Nat) (error_code category_index : Nat) :
    Nat × Option (Nat × Nat) :=
  let fmt_index_back := d &&& FORMATTER_MASK (ERROR_CHAIN_LEN - 1)
  let result :=
    if fmt_index_back > 0 then
      let ec_back := (d &&& CODE_MASK ERROR_CHAIN_LEN) >>>
        (ERROR_CHAIN_LEN * CODE_WIDTH)
      let fmt_back := fmt_index_back >>>
        ((ERROR_CHAIN_LEN - 1) * FORMATTER_IDX_WIDTH + FORMATTER_BITOFFSET)
      some (ec_back, fmt_back - 1)
    else none
  let fmt_indices := ((d &&& ALL_FORMATTER_MASK) <<< FORMATTER_IDX_WIDTH) % 2^32 |||
    (make_formatter_idx (category_index + 1) <<< FORMATTER_BITOFFSET)
  let err_codes := ((d <<< CODE_WIDTH) % 2^32 &&& ALL_CODE_MASK) ||| make_code error_code
  (fmt_indices ||| err_codes, result)

/-- Chain a new error code onto the record (`ErrorData::chain`), in the default
build configuration where overflow silently evicts the oldest entry. -/
def ErrorData.chain (d : Nat) (error_code category_index : Nat) : Nat :=
  (ErrorData.push_front d error_code category_index).1

/-- Chain a new error code onto the record under an explicit build
configuration (`ErrorData::chain` with its `debug_assert!` gated behind
`cfg(feature = "panic-on-overflow")`).  `strict = true` models a build with the
`panic-on-overflow` feature and debug assertions compiled in, in which the
assertion panics — returning `none` — precisely when `push_front` reports an
evicted entry; otherwise the operation completes with the updated record. -/
def ErrorData.chainCfg (strict : Bool) (d : Nat) (error_code category_index : Nat) :
    Option Nat :=
  let r := ErrorData.push_front d error_code category_index
  if strict && r.2.isSome then none else some r.1

/-- Fields of `ErrorData::iter_chain`'s iterator state: the `error_codes`
component, holding the four chained codes. -/
def ErrorData.iter_chain_codes (d : Nat) : Nat :=
  (d &&& ALL_CODE_MASK) >>> CODE_WIDTH

/-- Fields of `ErrorData::iter_chain`'s iterator state: the `formatters`
component, holding the four formatter-index fields. -/
def ErrorData.iter_chain_formatters (d : Nat) : Nat :=
  (d &&& ALL_FORMATTER_MASK) >>> FORMATTER_BITOFFSET

/-- The full sequence produced by repeatedly calling
`ErrorDataChainIter::next`: while `formatters` is non-zero it emits the lowest
code together with the next (already shifted) formatter index un-biased by 1,
then shifts both words.  The `% 256` models the `self.formatters as u8` cast
fed to `make_formatter_idx`. -/
def ErrorDataChainIter.toList (error_codes formatters : Nat) : List (Nat × Option Nat) :=
  if h : formatters > 0 then
    let ec := error_codes &&& CODE_MASK 0
    let formatters' := formatters >>> FORMATTER_IDX_WIDTH
    let next_fmt_index := make_formatter_idx (formatters' % 256)
    (ec, if next_fmt_index > 0 then some (next_fmt_index - 1) else none) ::
      ErrorDataChainIter.toList (error_codes >>> CODE_WIDTH) formatters'
  else []
termination_by formatters
decreasing_by
  simp only [FORMATTER_IDX_WIDTH, Nat.shiftRight_eq_div_pow]
  omega

/-- The chain iteration of a record (`ErrorData::iter_chain` followed by
draining the iterator). -/
def ErrorData.iterChain (d : Nat) : List (Nat × Option Nat) :=
  ErrorDataChainIter.toList (ErrorData.iter_chain_codes d) (ErrorData.iter_chain_formatters d)


/-! ## Arithmetic characterizations of the record operations -/

theorem mul_eq_zero_iff_1048576 (x : Nat) : x * 1048576 = 0 ↔ x = 0 := by omega

theorem mul_eq_zero_iff_8388608 (x : Nat) : x * 8388608 = 0 ↔ x = 0 := by omega

theorem mul_eq_zero_iff_67108864 (x : Nat) : x * 67108864 = 0 ↔ x = 0 := by omega

theorem mul_eq_zero_iff_536870912 (x : Nat) : x * 536870912 = 0 ↔ x = 0 := by omega

theorem lor_add_16 (x y : Nat) (hy : y < 16) : x * 16 ||| y = x * 16 + y := by
  have h := mul_pow_lor_add x y 4 (by omega)
  norm_num at h
  exact h

theorem lor_add_1048576 (x y : Nat) (hy : y < 1048576) :
    x * 1048576 ||| y = x * 1048576 + y := by
  have h := mul_pow_lor_add x y 20 (by omega)
  norm_num at h
  exact h

theorem lor_add_8388608 (x y : Nat) (hy : y < 8388608) :
    x * 8388608 ||| y = x * 8388608 + y := by
  have h := mul_pow_lor_add x y 23 (by omega)
  norm_num at h
  exact h

theorem make_code_eq (v : Nat) : make_code v = v % 16 := by
  simpa [make_code] using and_15 v

theorem make_formatter_idx_eq (v : Nat) : make_formatter_idx v = v % 8 := by
  simpa [make_formatter_idx] using and_7 v

theorem ErrorData.new_eq (ec : Nat) : ErrorData.new ec = ec % 16 := by
  simpa [ErrorData.new, CODE_MASK] using and_15 ec

theorem ErrorData.code_eq (d : Nat) : ErrorData.code d = d % 16 := by
  simpa [ErrorData.code, CODE_MASK] using and_15 d

theorem ErrorData.set_code_eq (d : Nat) (c : Nat) :
    ErrorData.set_code d c = (d / 16 % 268435456 * 16 + c % 16, d % 16) := by
  unfold ErrorData.set_code
  simp only [make_code_eq, and_notcode0]
  rw [lor_add_16 _ _ (Nat.mod_lt _ (by norm_num))]
  rw [Nat.mod_mod_of_dvd d (by norm_num : (16:Nat) ∣ 256)]

theorem ErrorData.first_formatter_index_eq (d : Nat) :
    ErrorData.first_formatter_index d =
      if d / 1048576 % 8 = 0 then none else some (d / 1048576 % 8 - 1) := by
  unfold ErrorData.first_formatter_index
  simp only [show FORMATTER_MASK 0 = 0x00700000 from rfl, and_fmt0,
    show FORMATTER_BITOFFSET = 20 from rfl, Nat.shiftRight_eq_div_pow,
    show (2:Nat)^20 = 1048576 from rfl,
    Nat.mul_div_cancel _ (show 0 < 1048576 by norm_num)]
  rcases Nat.eq_zero_or_pos (d / 1048576 % 8) with h | h
  · simp [h]
  · have h' : ¬ d / 1048576 % 8 = 0 := by omega
    rw [if_pos h, if_neg h']

theorem ErrorData.chain_len_eq (d : Nat) :
    ErrorData.chain_len d =
      if d / 1048576 % 8 = 0 then 0
      else if d / 8388608 % 8 = 0 then 1
      else if d / 67108864 % 8 = 0 then 2
      else if d / 536870912 % 8 = 0 then 3
      else 4 := by
  unfold ErrorData.chain_len
  simp only [show FORMATTER_MASK 0 = 0x00700000 from rfl,
    show FORMATTER_MASK 1 = 0x03800000 from rfl,
    show FORMATTER_MASK 2 = 0x1c000000 from rfl,
    show FORMATTER_MASK 3 = 0xe0000000 from rfl,
    and_fmt0, and_fmt1, and_fmt2, and_fmt3,
    mul_eq_zero_iff_1048576, mul_eq_zero_iff_8388608,
    mul_eq_zero_iff_67108864, mul_eq_zero_iff_536870912,
    show ERROR_CHAIN_LEN = 4 from rfl]

theorem ErrorData.push_front_eq (d ec ci : Nat) :
    ErrorData.push_front d ec ci =
      ((d / 1048576 % 512 * 8 + (ci + 1) % 8) * 1048576 + (d % 65536 * 16 + ec % 16),
       if d / 536870912 % 8 = 0 then none
       else some (d / 65536 % 16, d / 536870912 % 8 - 1)) := by
  unfold ErrorData.push_front
  have hres :
      (if d &&& FORMATTER_MASK (ERROR_CHAIN_LEN - 1) > 0 then
        some ((d &&& CODE_MASK ERROR_CHAIN_LEN) >>> (ERROR_CHAIN_LEN * CODE_WIDTH),
          (d &&& FORMATTER_MASK (ERROR_CHAIN_LEN - 1)) >>>
            ((ERROR_CHAIN_LEN - 1) * FORMATTER_IDX_WIDTH + FORMATTER_BITOFFSET) - 1)
       else none) =
      (if d / 536870912 % 8 = 0 then none
       else some (d / 65536 % 16, d / 536870912 % 8 - 1)) := by
    rw [show FORMATTER_MASK (ERROR_CHAIN_LEN - 1) = 0xe0000000 from rfl,
      show CODE_MASK ERROR_CHAIN_LEN = 0x000f0000 from rfl, and_fmt3, and_code4,
      show ERROR_CHAIN_LEN * CODE_WIDTH = 16 from rfl,
      show (ERROR_CHAIN_LEN - 1) * FORMATTER_IDX_WIDTH + FORMATTER_BITOFFSET = 29 from rfl,
      Nat.shiftRight_eq_div_pow, Nat.shiftRight_eq_div_pow,
      show (2:Nat)^16 = 65536 from rfl, show (2:Nat)^29 = 536870912 from rfl,
      Nat.mul_div_cancel _ (show 0 < 65536 by norm_num),
      Nat.mul_div_cancel _ (show 0 < 536870912 by norm_num)]
    rcases Nat.eq_zero_or_pos (d / 536870912 % 8) with h | h
    · simp [h]
    · have h' : ¬ d / 536870912 % 8 = 0 := by omega
      have hpos : d / 536870912 % 8 * 536870912 > 0 := by omega
      rw [if_pos hpos, if_neg h']
  have hfmt : ((d &&& ALL_FORMATTER_MASK) <<< FORMATTER_IDX_WIDTH) % 2^32 |||
      (make_formatter_idx (ci + 1) <<< FORMATTER_BITOFFSET) =
      (d / 1048576 % 512 * 8 + (ci + 1) % 8) * 1048576 := by
    rw [show ALL_FORMATTER_MASK = 0xfff00000 from rfl, and_allfmt, make_formatter_idx_eq,
      show FORMATTER_IDX_WIDTH = 3 from rfl, show FORMATTER_BITOFFSET = 20 from rfl,
      Nat.shiftLeft_eq, Nat.shiftLeft_eq,
      show (2:Nat)^3 = 8 from rfl, show (2:Nat)^20 = 1048576 from rfl,
      show (2:Nat)^32 = 4294967296 from rfl]
    have e1 : d / 1048576 % 4096 * 1048576 * 8 = d / 1048576 % 4096 * 8388608 := by ring
    have e2 : (4294967296:Nat) = 512 * 8388608 := by norm_num
    rw [e1, e2, Nat.mul_mod_mul_right,
      Nat.mod_mod_of_dvd _ (by norm_num : (512:Nat) ∣ 4096)]
    rw [lor_add_8388608 _ _ (by omega)]
    ring
  have hcodes : ((d <<< CODE_WIDTH) % 2^32 &&& ALL_CODE_MASK) ||| make_code ec =
      d % 65536 * 16 + ec % 16 := by
    rw [show ALL_CODE_MASK = 0x000fffff from rfl, and_codes, make_code_eq,
      show CODE_WIDTH = 4 from rfl, Nat.shiftLeft_eq, show (2:Nat)^4 = 16 from rfl,
      show (2:Nat)^32 = 4294967296 from rfl,
      Nat.mod_mod_of_dvd _ (by norm_num : (1048576:Nat) ∣ 4294967296),
      show (1048576:Nat) = 65536 * 16 from rfl, Nat.mul_mod_mul_right]
    rw [lor_add_16 _ _ (by omega)]
  simp only [hres, hfmt, hcodes]
  rw [lor_add_1048576 _ _ (by omega)]

theorem ErrorData.chain_eq (d ec ci : Nat) :
    ErrorData.chain d ec ci =
      (d / 1048576 % 512 * 8 + (ci + 1) % 8) * 1048576 + (d % 65536 * 16 + ec % 16) := by
  unfold ErrorData.chain
  rw [ErrorData.push_front_eq]

theorem ErrorData.iter_chain_codes_eq (d : Nat) :
    ErrorData.iter_chain_codes d = d % 1048576 / 16 := by
  unfold ErrorData.iter_chain_codes
  rw [show ALL_CODE_MASK = 0x000fffff from rfl, and_codes,
    show CODE_WIDTH = 4 from rfl, Nat.shiftRight_eq_div_pow,
    show (2:Nat)^4 = 16 from rfl]

theorem ErrorData.iter_chain_formatters_eq (d : Nat) :
    ErrorData.iter_chain_formatters d = d / 1048576 % 4096 := by
  unfold ErrorData.iter_chain_formatters
  rw [show ALL_FORMATTER_MASK = 0xfff00000 from rfl, and_allfmt,
    show FORMATTER_BITOFFSET = 20 from rfl, Nat.shiftRight_eq_div_pow,
    show (2:Nat)^20 = 1048576 from rfl,
    Nat.mul_div_cancel _ (show 0 < 1048576 by norm_num)]

theorem ErrorDataChainIter.toList_zero (ecs : Nat) :
    ErrorDataChainIter.toList ecs 0 = [] := by
  rw [ErrorDataChainIter.toList]
  simp

theorem ErrorDataChainIter.toList_step (ecs fmts : Nat) (h : fmts ≠ 0) :
    ErrorDataChainIter.toList ecs fmts =
      (ecs % 16,
        if fmts / 8 % 8 = 0 then none else some (fmts / 8 % 8 - 1)) ::
      ErrorDataChainIter.toList (ecs / 16) (fmts / 8) := by
  rw [ErrorDataChainIter.toList, dif_pos (Nat.pos_of_ne_zero h)]
  simp only [make_formatter_idx_eq, show CODE_MASK 0 = 0x0000000f from rfl, and_15,
    show FORMATTER_IDX_WIDTH = 3 from rfl, show CODE_WIDTH = 4 from rfl,
    Nat.shiftRight_eq_div_pow, show (2:Nat)^3 = 8 from rfl, show (2:Nat)^4 = 16 from rfl,
    Nat.mod_mod_of_dvd _ (by norm_num : (8:Nat) ∣ 256)]
  rcases Nat.eq_zero_or_pos (fmts / 8 % 8) with h8 | h8
  · simp [h8]
  · have h8' : ¬ fmts / 8 % 8 = 0 := by omega
    rw [if_pos h8, if_neg h8']

/-! ## Categories and formatter dispatch (`src/error_category.rs`)

An `ErrorCodeFormatter` function is monomorphised once per category type and
the crate treats its address as a unique runtime token for that category (see
the doc of `ErrorCodeFormatter`: one such function is uniquely associated with
one `ErrorCategory` type).  We therefore model a formatter pointer as the
numeric identity `c : Nat` of its category, and an environment `Env` maps that
identity to the category's static data: its `NAME` (both the string and the
identity of the static the name pointer refers to, since `is_handle_of`
compares name pointers, which may be shared between categories with equal
name text), the slice returned by `chainable_category_formatters()` (a list of
formatter identities), and the `Debug` rendering of each code. -/

/-- Static data of one error category. -/
structure CatInfo where
  name : String
  nameId : Nat
  links : List Nat
  render : Nat → String

/-- An environment assigning category data to each formatter identity. -/
abbrev Env := Nat → CatInfo

/-- A runtime handle for a category (`ErrorCategoryHandle`): the identity of
its `NAME` pointer together with the identity of its
`chainable_category_formatters` function, compared componentwise exactly as
`is_handle_of` and `PartialEq for ErrorCategoryHandle` compare pointers.  The
`chainable_category_formatters` accessor is monomorphised per category, so its
identity is the category identity itself. -/
structure ErrorCategoryHandle where
  nameId : Nat
  formattersId : Nat
deriving DecidableEq

/-- The handle of category `c` (`ErrorCategoryHandle::new::<C>`). -/
def ErrorCategoryHandle.ofCat (E : Env) (c : Nat) : ErrorCategoryHandle :=
  ⟨(E c).nameId, c⟩

/-- Lookup of the next formatter performed inside `format_chained`:
`next_formatter.and_then` of an in-bounds index into
`C::chainable_category_formatters()`. -/
def formatterLookup (E : Env) (c : Nat) (next_formatter : Option Nat) : Option Nat :=
  next_formatter.bind fun idx => List.get? (E c).links idx

/-- The text `format_chained::<C>` writes for one error code when given a
sink: `NAME(code): debug-of-code`. -/
def format_line (E : Env) (c error_code : Nat) : String :=
  (E c).name ++ "(" ++ toString error_code ++ "): " ++ (E c).render error_code

/-- Model of `format_chained::<C>`: returns the category's handle, the text
written to the sink (when one is supplied), and the next formatter if
`next_formatter` is an in-bounds index into the link table.  The sink of the
model is a `String` and never fails, so the `fmt::Error` branch is absent. -/
def format_chained (E : Env) (c error_code : Nat) (next_formatter : Option Nat) :
    ErrorCategoryHandle × String × Option Nat :=
  (ErrorCategoryHandle.ofCat E c, format_line E c error_code,
    formatterLookup E c next_formatter)

/-! ## The typed error and its iterator (`src/error.rs`)

`Error<C>` is the packed record plus a phantom category; its record is carried
as a bare `Nat` and the category identity appears as an explicit argument of
the operations that consult it. -/

/-- The record of `Error::new` (and `Error::new_raw`): a fresh record with an
empty chain. -/
def Error.new (error_code : Nat) : Nat :=
  ErrorData.new error_code

/-- The compile-time checked chain of the `ChainError` impl produced by
`impl_chain_error!` for `Error<C::Lk>`: `idx` is the literal `k` (0..5) of the
impl, i.e. the position of the current error's category inside the link table
of the new code's category `C`, fixed at compile time. -/
def Error.chain (d error_code idx : Nat) : Nat :=
  ErrorData.chain d error_code idx

/-- The sequence produced by repeatedly calling `ErrorIter::next` starting
from the state (formatter `fmt`, current code, pending next-formatter index,
remaining chain items).  Each step calls the formatter with code 0 and no sink
to obtain this node's handle and the next formatter; it advances only when
both a next chain item and a next formatter exist, otherwise the formatter
becomes `None` and iteration ends after emitting the current node. -/
def ErrorIter.toList (E : Env) :
    Nat → Nat → Option Nat → List (Nat × Option Nat) → List (Nat × ErrorCategoryHandle)
  | fmt, curr_error_code, next_formatter_index, [] =>
    [(curr_error_code, (format_chained E fmt 0 next_formatter_index).1)]
  | fmt, curr_error_code, next_formatter_index, (nec, nnfi) :: rest =>
    match (format_chained E fmt 0 next_formatter_index).2.2 with
    | some nf =>
        (curr_error_code, (format_chained E fmt 0 next_formatter_index).1) ::
          ErrorIter.toList E nf nec nnfi rest
    | none => [(curr_error_code, (format_chained E fmt 0 next_formatter_index).1)]

/-- The full iteration of `Error::<C>::iter` for a typed error with record `d`
and category identity `c`: the initial formatter is `format_chained::<C>`. -/
def Error.iter (E : Env) (c d : Nat) : List (Nat × ErrorCategoryHandle) :=
  ErrorIter.toList E c (ErrorData.code d) (ErrorData.first_formatter_index d)
    (ErrorData.iterChain d)

/-! ## The type-erased error (`src/dyn_error.rs`) -/

/-- A `DynError`: the packed record plus the formatter pointer of the most
recent error's category. -/
structure DynError where
  error : Nat
  category_formatter : Nat
deriving DecidableEq

/-- Create a `DynError` from a code of category `c` (`DynError::new`). -/
def DynError.new (c error_code : Nat) : DynError :=
  ⟨ErrorData.new error_code, c⟩

/-- Erase a typed error (`impl From<Error<C>> for DynError`): keep the record,
pair it with `format_chained::<C>`. -/
def DynError.fromError (c d : Nat) : DynError :=
  ⟨d, c⟩

/-- The handle of the most recent error (`DynError::category_handle`), obtained
by calling the stored formatter. -/
def DynError.category_handle (E : Env) (e : DynError) : ErrorCategoryHandle :=
  (format_chained E e.category_formatter 0 none).1

/-- Whether the most recent error belongs to category `c` (`DynError::is`,
via `ErrorCategoryHandle::is_handle_of`). -/
def DynError.isCat (E : Env) (e : DynError) (c : Nat) : Bool :=
  DynError.category_handle E e = ErrorCategoryHandle.ofCat E c

/-- Convert to a typed error of category `c` if the category matches
(`DynError::try_into`); otherwise return the original value. -/
def DynError.try_into (E : Env) (e : DynError) (c : Nat) : Except DynError Nat :=
  if DynError.isCat E e c then Except.ok e.error else Except.error e

/-- The iteration of `DynError::iter`: same walk as `Error::iter`, starting
from the stored formatter. -/
def DynError.iter (E : Env) (e : DynError) : List (Nat × ErrorCategoryHandle) :=
  ErrorIter.toList E e.category_formatter (ErrorData.code e.error)
    (ErrorData.first_formatter_index e.error) (ErrorData.iterChain e.error)

/-- The `enumerate().find_map(..)` scan of `DynError::try_chain` over
`C::chainable_category_formatters()`: `i` is the running enumeration index,
compared entries are formatter pointers, and `% 256` models the `i as u8`
cast passed to `ErrorData::chain`. -/
def try_chain_scan (fmtId error_code d : Nat) : Nat → List Nat → Option Nat
  | _, [] => none
  | i, f :: rest =>
    if f = fmtId then some (ErrorData.chain d error_code (i % 256))
    else try_chain_scan fmtId error_code d (i + 1) rest

/-- Dynamically checked chaining (`DynError::try_chain`): scan the new
category's link table for the stored formatter pointer; on a match at index
`i`, chain with that index and return the typed record, else return the
original erased value. -/
def DynError.try_chain (E : Env) (e : DynError) (c error_code : Nat) :
    Except DynError Nat :=
  match try_chain_scan e.category_formatter error_code e.error 0 (E c).links with
  | some r => Except.ok r
  | none => Except.error e

/-- The loop of `impl Debug for DynError`: walk the chain items, and while a
formatter is available append a newline, the prefix and that node's line;
stop as soon as the formatter chain runs out. -/
def DynError.fmtLoop (E : Env) : Option Nat → List (Nat × Option Nat) → String → String
  | _, [], acc => acc
  | none, _ :: _, acc => acc
  | some f, (ec, nfi) :: rest, acc =>
      DynError.fmtLoop E (format_chained E f ec nfi).2.2 rest
        (acc ++ "\n- " ++ (format_chained E f ec nfi).2.1)

/-- The text produced by `impl Debug for DynError` (and, via delegation, by
`impl Debug for Error<C>`): the current error's line, then one `"- "`-prefixed
line per reachable chain node. -/
def DynError.debugFmt (E : Env) (e : DynError) : String :=
  DynError.fmtLoop E
    (format_chained E e.category_formatter (ErrorData.code e.error)
      (ErrorData.first_formatter_index e.error)).2.2
    (ErrorData.iterChain e.error)
    (format_chained E e.category_formatter (ErrorData.code e.error)
      (ErrorData.first_formatter_index e.error)).2.1

/-! ## Facts about the try_chain scan -/

theorem try_chain_scan_found (fmtId ec d : Nat) :
    ∀ (l : List Nat) (i k : Nat), List.get? l k = some fmtId →
      (∀ j, j < k → List.get? l j ≠ some fmtId) →
      try_chain_scan fmtId ec d i l =
        some (ErrorData.chain d ec ((i + k) % 256)) := by
  intro l
  induction l with
  | nil => intro i k hk _; simp at hk
  | cons f rest ih =>
    intro i k hk hfirst
    cases k with
    | zero =>
      simp at hk
      simp [try_chain_scan, hk]
    | succ k' =>
      have hne : f ≠ fmtId := by
        intro heq
        exact hfirst 0 (Nat.succ_pos k') (by simp [heq])
      rw [try_chain_scan, if_neg hne]
      have := ih (i + 1) k' (by simpa using hk)
        (fun j hj => by simpa using hfirst (j + 1) (by omega))
      rw [this]
      congr 2
      omega

theorem try_chain_scan_none (fmtId ec d : Nat) :
    ∀ (l : List Nat) (i : Nat), (∀ f ∈ l, f ≠ fmtId) →
      try_chain_scan fmtId ec d i l = none := by
  intro l
  induction l with
  | nil => intro i _; rfl
  | cons f rest ih =>
    intro i h
    rw [try_chain_scan, if_neg (h f (by simp))]
    exact ih (i + 1) (fun g hg => h g (by simp [hg]))

/-! ## Claim theorems -/

/-- Claim C1: for categories `a` and `b` where `b`'s link table contains `a`
(at position `k ≤ 5`, `k` being the first occurrence — the situation in which
the compile-time `ChainError` impl for `Error<b::Lk>` is selected), chaining a
record `e` of category `a` with a code of `b` through the compile-time typed
path and through `DynError::try_chain` on the erased error yield bit-identical
packed records: `try_chain` succeeds and returns exactly the record of the
static path. -/
theorem C1_static_dynamic_equivalence (E : Env) (a b k e ec : Nat)
    (hk : k ≤ 5)
    (hget : List.get? (E b).links k = some a)
    (hfirst : ∀ j, j < k → List.get? (E b).links j ≠ some a) :
    DynError.try_chain E (DynError.fromError a e) b ec =
      Except.ok (Error.chain e ec k) := by
  unfold DynError.try_chain DynError.fromError
  rw [try_chain_scan_found _ _ _ _ 0 k hget hfirst]
  rw [show (0 + k) % 256 = k by omega]
  rfl

/-- Claim C2: if the link table returned by the target category's
`chainable_category_formatters()` does not contain the erased error's stored
formatter pointer, `try_chain` returns `Err` with the original `DynError`
value itself — same packed record, same formatter pointer, no mutation. -/
theorem C2_unlinked_rejection (E : Env) (e : DynError) (c ec : Nat)
    (h : ∀ f ∈ (E c).links, f ≠ e.category_formatter) :
    DynError.try_chain E e c ec = Except.error e := by
  unfold DynError.try_chain
  rw [try_chain_scan_none _ _ _ _ 0 h]

/-- Claim C10: erasing a typed error of category `c` and converting back with
`try_into::<c>` is the identity on the packed record; `try_into` succeeds
exactly when the erased error's category handle equals the handle of the
target category, and on failure it returns the original `DynError`
unchanged. -/
theorem C10_erase_unerase_roundtrip (E : Env) (c d : Nat) (e : DynError) :
    DynError.try_into E (DynError.fromError c d) c = Except.ok d ∧
    ((∃ r, DynError.try_into E e c = Except.ok r) ↔
      DynError.category_handle E e = ErrorCategoryHandle.ofCat E c) ∧
    (DynError.category_handle E e ≠ ErrorCategoryHandle.ofCat E c →
      DynError.try_into E e c = Except.error e) := by
  refine ⟨?_, ⟨?_, ?_⟩, ?_⟩
  · unfold DynError.try_into DynError.isCat DynError.category_handle DynError.fromError
      format_chained
    simp
  · intro ⟨r, hr⟩
    unfold DynError.try_into DynError.isCat at hr
    by_cases h : DynError.category_handle E e = ErrorCategoryHandle.ofCat E c
    · exact h
    · rw [if_neg (by simpa using h)] at hr
      exact absurd hr (by simp)
  · intro h
    unfold DynError.try_into DynError.isCat
    rw [if_pos (by simpa using h)]
    exact ⟨e.error, rfl⟩
  · intro h
    unfold DynError.try_into DynError.isCat
    rw [if_neg (by simpa using h)]

/-- The data-model invariant of the packed record (spec section 3): presence
of link-index fields is contiguous from the front — a non-zero field at
position `i + 1` implies a non-zero field at position `i`.  Safe construction
(`new` plus chaining with valid link indices) maintains this. -/
def Contig (d : Nat) : Prop :=
  (d / 8388608 % 8 ≠ 0 → d / 1048576 % 8 ≠ 0) ∧
  (d / 67108864 % 8 ≠ 0 → d / 8388608 % 8 ≠ 0) ∧
  (d / 536870912 % 8 ≠ 0 → d / 67108864 % 8 ≠ 0)

instance (d : Nat) : Decidable (Contig d) := by
  unfold Contig
  infer_instance

/-- Under the contiguity invariant, the chain is full (length 4) exactly when
the last link-index field is non-zero — the condition `push_front` tests. -/
theorem chain_full_iff (d : Nat) (h : Contig d) :
    ErrorData.chain_len d = 4 ↔ d / 536870912 % 8 ≠ 0 := by
  obtain ⟨h1, h2, h3⟩ := h
  constructor
  · intro h4
    rw [ErrorData.chain_len_eq] at h4
    by_contra e3
    split_ifs at h4 <;> omega
  · intro e3
    have e2 := h3 e3
    have e1 := h2 e2
    have e0 := h1 e1
    rw [ErrorData.chain_len_eq, if_neg e0, if_neg e1, if_neg e2, if_neg e3]

/-- Claim C9 (frame property of `set_code`): replacing the current code
changes only the current-code field.  For every 32-bit record, after
`set_code d c` the chain length, the first formatter index, all four chained
code fields and all four link-index fields are unchanged; the new current
code is `c` masked to 4 bits, and the returned old code is the previous
`code`. -/
theorem C9_set_code_frame (d c : Nat) (hd : d < 4294967296) :
    ErrorData.chain_len (ErrorData.set_code d c).1 = ErrorData.chain_len d ∧
    ErrorData.first_formatter_index (ErrorData.set_code d c).1 =
      ErrorData.first_formatter_index d ∧
    ((ErrorData.set_code d c).1 / 16 % 16 = d / 16 % 16 ∧
     (ErrorData.set_code d c).1 / 256 % 16 = d / 256 % 16 ∧
     (ErrorData.set_code d c).1 / 4096 % 16 = d / 4096 % 16 ∧
     (ErrorData.set_code d c).1 / 65536 % 16 = d / 65536 % 16) ∧
    ((ErrorData.set_code d c).1 / 1048576 % 8 = d / 1048576 % 8 ∧
     (ErrorData.set_code d c).1 / 8388608 % 8 = d / 8388608 % 8 ∧
     (ErrorData.set_code d c).1 / 67108864 % 8 = d / 67108864 % 8 ∧
     (ErrorData.set_code d c).1 / 536870912 % 8 = d / 536870912 % 8) ∧
    ErrorData.code (ErrorData.set_code d c).1 = c % 16 ∧
    (ErrorData.set_code d c).2 = ErrorData.code d := by
  have h1 : (ErrorData.set_code d c).1 = d / 16 * 16 + c % 16 := by
    rw [ErrorData.set_code_eq]
    have hb : d / 16 < 268435456 := by omega
    simp [Nat.mod_eq_of_lt hb]
  have h2 : (ErrorData.set_code d c).2 = d % 16 := by
    rw [ErrorData.set_code_eq]
  rw [h1, h2, ErrorData.chain_len_eq, ErrorData.chain_len_eq,
    ErrorData.first_formatter_index_eq, ErrorData.first_formatter_index_eq,
    ErrorData.code_eq, ErrorData.code_eq]
  have g20 : (d / 16 * 16 + c % 16) / 1048576 % 8 = d / 1048576 % 8 := by omega
  have g23 : (d / 16 * 16 + c % 16) / 8388608 % 8 = d / 8388608 % 8 := by omega
  have g26 : (d / 16 * 16 + c % 16) / 67108864 % 8 = d / 67108864 % 8 := by omega
  have g29 : (d / 16 * 16 + c % 16) / 536870912 % 8 = d / 536870912 % 8 := by omega
  rw [g20, g23, g26, g29]
  refine ⟨rfl, rfl, ⟨by omega, by omega, by omega, by omega⟩,
    ⟨rfl, rfl, rfl, rfl⟩, by omega, rfl⟩

/-- Claim C5 (overflow policy of `ErrorData::chain`): in the strict build
configuration — the `panic-on-overflow` feature with debug assertions
compiled in, so that `debug_assert!` is active — chaining onto a full chain
panics instead of completing, and chaining onto a non-full chain completes
normally; in the default configuration the operation always completes (on a
full chain the oldest entry is evicted, as witnessed by `push_front`
reporting an evicted pair). -/
theorem C5_overflow_policy (d ec ci : Nat) (hcontig : Contig d) :
    (ErrorData.chain_len d = 4 → ErrorData.chainCfg true d ec ci = none) ∧
    (ErrorData.chain_len d ≠ 4 → ErrorData.chainCfg true d ec ci =
      some (ErrorData.chain d ec ci)) ∧
    ErrorData.chainCfg false d ec ci = some (ErrorData.chain d ec ci) ∧
    (ErrorData.chain_len d = 4 → (ErrorData.push_front d ec ci).2.isSome) := by
  have hfull := chain_full_iff d hcontig
  refine ⟨?_, ?_, ?_, ?_⟩
  · intro h4
    have hne := hfull.mp h4
    simp [ErrorData.chainCfg, ErrorData.push_front_eq, hne]
  · intro h4
    have heq : d / 536870912 % 8 = 0 := by
      by_contra hne
      exact h4 (hfull.mpr hne)
    simp [ErrorData.chainCfg, ErrorData.chain, ErrorData.push_front_eq, heq]
  · simp [ErrorData.chainCfg, ErrorData.chain]
  · intro h4
    have hne := hfull.mp h4
    simp [ErrorData.push_front_eq, hne]

/-- Un-bias a stored 3-bit formatter-index field into an optional link index
(used to state iterator items). -/
def optIdx (n : Nat) : Option Nat :=
  if n = 0 then none else some (n - 1)

/-- Closed evaluation of the chain iterator for an in-range `formatters` word
(it is always below `2^12`, being 4 fields of 3 bits). -/
theorem toList_spec (ecs fmts : Nat) (h : fmts < 4096) :
    ErrorDataChainIter.toList ecs fmts =
      if fmts = 0 then []
      else (ecs % 16, optIdx (fmts / 8 % 8)) ::
        if fmts / 8 = 0 then []
        else (ecs / 16 % 16, optIdx (fmts / 64 % 8)) ::
          if fmts / 64 = 0 then []
          else (ecs / 256 % 16, optIdx (fmts / 512 % 8)) ::
            if fmts / 512 = 0 then []
            else [(ecs / 4096 % 16, none)] := by
  by_cases h0 : fmts = 0
  · simp [h0, ErrorDataChainIter.toList_zero]
  rw [ErrorDataChainIter.toList_step _ _ h0, if_neg h0]
  congr 1
  by_cases h1 : fmts / 8 = 0
  · rw [if_pos h1, h1, ErrorDataChainIter.toList_zero]
  rw [ErrorDataChainIter.toList_step _ _ h1, if_neg h1,
    show fmts / 8 / 8 = fmts / 64 by omega, show ecs / 16 / 16 = ecs / 256 by omega]
  congr 1
  by_cases h2 : fmts / 64 = 0
  · rw [if_pos h2, h2, ErrorDataChainIter.toList_zero]
  rw [ErrorDataChainIter.toList_step _ _ h2, if_neg h2,
    show fmts / 64 / 8 = fmts / 512 by omega, show ecs / 256 / 16 = ecs / 4096 by omega]
  congr 1
  by_cases h3 : fmts / 512 = 0
  · rw [if_pos h3, h3, ErrorDataChainIter.toList_zero]
  rw [ErrorDataChainIter.toList_step _ _ h3, if_neg h3,
    show fmts / 512 / 8 = 0 by omega, ErrorDataChainIter.toList_zero]
  rfl

/-- Claim C3: `push_front` returns an evicted pair exactly when the chain was
full (`chain_len = 4`) before the call — for records satisfying the
contiguity invariant of the data model and a valid (0..6) link index, as
produced by all call sites.  The returned pair is the oldest chained code
(the last code yielded by the chain iteration) together with its link-index
field un-biased by 1, and after the call that last entry is gone: the new
chain iteration carries the previous current code followed by only the first
three previously chained codes. -/
theorem C3_push_front_eviction (d ec ci : Nat) (hcontig : Contig d) (hci : ci ≤ 6) :
    ((ErrorData.push_front d ec ci).2.isSome ↔ ErrorData.chain_len d = 4) ∧
    (ErrorData.chain_len d ≠ 4 → (ErrorData.push_front d ec ci).2 = none) ∧
    (ErrorData.chain_len d = 4 →
      (ErrorData.push_front d ec ci).2 =
        some (d / 65536 % 16, d / 536870912 % 8 - 1) ∧
      List.map Prod.fst (ErrorData.iterChain d) =
        [d / 16 % 16, d / 256 % 16, d / 4096 % 16, d / 65536 % 16] ∧
      List.map Prod.fst (ErrorData.iterChain (ErrorData.push_front d ec ci).1) =
        ErrorData.code d ::
          (List.map Prod.fst (ErrorData.iterChain d)).take 3) := by
  have hfull := chain_full_iff d hcontig
  obtain ⟨hc1, hc2, hc3⟩ := hcontig
  refine ⟨?_, ?_, ?_⟩
  · by_cases h3 : d / 536870912 % 8 = 0
    · simp [ErrorData.push_front_eq, h3, hfull]
    · simp [ErrorData.push_front_eq, h3, hfull]
  · intro h4
    have heq : d / 536870912 % 8 = 0 := by
      by_contra hne
      exact h4 (hfull.mpr hne)
    simp [ErrorData.push_front_eq, heq]
  · intro h4
    have f3 : d / 536870912 % 8 ≠ 0 := hfull.mp h4
    have f2 : d / 67108864 % 8 ≠ 0 := hc3 f3
    have f1 : d / 8388608 % 8 ≠ 0 := hc2 f2
    have f0 : d / 1048576 % 8 ≠ 0 := hc1 f1
    have hold : List.map Prod.fst (ErrorData.iterChain d) =
        [d / 16 % 16, d / 256 % 16, d / 4096 % 16, d / 65536 % 16] := by
      unfold ErrorData.iterChain
      rw [ErrorData.iter_chain_codes_eq, ErrorData.iter_chain_formatters_eq,
        toList_spec _ _ (by omega)]
      rw [if_neg (show ¬ d / 1048576 % 4096 = 0 by omega),
        if_neg (show ¬ d / 1048576 % 4096 / 8 = 0 by omega),
        if_neg (show ¬ d / 1048576 % 4096 / 64 = 0 by omega),
        if_neg (show ¬ d / 1048576 % 4096 / 512 = 0 by omega)]
      simp only [List.map_cons, List.map_nil]
      rw [show d % 1048576 / 16 % 16 = d / 16 % 16 by omega,
        show d % 1048576 / 16 / 16 % 16 = d / 256 % 16 by omega,
        show d % 1048576 / 16 / 256 % 16 = d / 4096 % 16 by omega,
        show d % 1048576 / 16 / 4096 % 16 = d / 65536 % 16 by omega]
    have hdata : (ErrorData.push_front d ec ci).1 =
        (d / 1048576 % 512 * 8 + (ci + 1) % 8) * 1048576 +
          (d % 65536 * 16 + ec % 16) := by
      rw [ErrorData.push_front_eq]
    refine ⟨?_, hold, ?_⟩
    · simp [ErrorData.push_front_eq, f3]
    · rw [hold, hdata, ErrorData.code_eq]
      unfold ErrorData.iterChain
      rw [ErrorData.iter_chain_codes_eq, ErrorData.iter_chain_formatters_eq,
        toList_spec _ _ (by omega)]
      rw [if_neg (show ¬ ((d / 1048576 % 512 * 8 + (ci + 1) % 8) * 1048576 +
            (d % 65536 * 16 + ec % 16)) / 1048576 % 4096 = 0 by omega),
        if_neg (show ¬ ((d / 1048576 % 512 * 8 + (ci + 1) % 8) * 1048576 +
            (d % 65536 * 16 + ec % 16)) / 1048576 % 4096 / 8 = 0 by omega),
        if_neg (show ¬ ((d / 1048576 % 512 * 8 + (ci + 1) % 8) * 1048576 +
            (d % 65536 * 16 + ec % 16)) / 1048576 % 4096 / 64 = 0 by omega),
        if_neg (show ¬ ((d / 1048576 % 512 * 8 + (ci + 1) % 8) * 1048576 +
            (d % 65536 * 16 + ec % 16)) / 1048576 % 4096 / 512 = 0 by omega)]
      simp only [List.map_cons, List.map_nil, List.take]
      rw [show ((d / 1048576 % 512 * 8 + (ci + 1) % 8) * 1048576 +
            (d % 65536 * 16 + ec % 16)) % 1048576 / 16 % 16 = d % 16 by omega,
        show ((d / 1048576 % 512 * 8 + (ci + 1) % 8) * 1048576 +
            (d % 65536 * 16 + ec % 16)) % 1048576 / 16 / 16 % 16 = d / 16 % 16 by omega,
        show ((d / 1048576 % 512 * 8 + (ci + 1) % 8) * 1048576 +
            (d % 65536 * 16 + ec % 16)) % 1048576 / 16 / 256 % 16 = d / 256 % 16 by omega,
        show ((d / 1048576 % 512 * 8 + (ci + 1) % 8) * 1048576 +
            (d % 65536 * 16 + ec % 16)) % 1048576 / 16 / 4096 % 16 = d / 4096 % 16 by omega]


/-- The chain length never exceeds the capacity 4. -/
theorem chain_len_le_four (d : Nat) : ErrorData.chain_len d ≤ 4 := by
  rw [ErrorData.chain_len_eq]
  split_ifs <;> omega

/-- A fresh record has chain length 0. -/
theorem chain_len_new (c : Nat) : ErrorData.chain_len (ErrorData.new c) = 0 := by
  rw [ErrorData.new_eq, ErrorData.chain_len_eq]
  rw [if_pos (by omega)]

/-- Field 0 of a freshly packed record. -/
theorem packed_field0 (A B low : Nat) (hB : B < 8) (hlow : low < 1048576) :
    ((A * 8 + B) * 1048576 + low) / 1048576 % 8 = B := by omega

/-- Field 1 of a freshly packed record. -/
theorem packed_field1 (A B low : Nat) (_hA : A < 512) (hB : B < 8)
    (hlow : low < 1048576) :
    ((A * 8 + B) * 1048576 + low) / 8388608 % 8 = A % 8 := by omega

/-- Field 2 of a freshly packed record. -/
theorem packed_field2 (A B low : Nat) (_hA : A < 512) (hB : B < 8)
    (hlow : low < 1048576) :
    ((A * 8 + B) * 1048576 + low) / 67108864 % 8 = A / 8 % 8 := by omega

/-- Field 3 of a freshly packed record. -/
theorem packed_field3 (A B low : Nat) (_hA : A < 512) (hB : B < 8)
    (hlow : low < 1048576) :
    ((A * 8 + B) * 1048576 + low) / 536870912 % 8 = A / 64 % 8 := by omega

/-- Chaining with a link index whose biased field is non-zero (any index
0..6) increments the chain length, saturating at 4. -/
theorem chain_len_chain (d ec ci : Nat) (hci : (ci + 1) % 8 ≠ 0) :
    ErrorData.chain_len (ErrorData.chain d ec ci) =
      min (ErrorData.chain_len d + 1) 4 := by
  rw [ErrorData.chain_eq, ErrorData.chain_len_eq, ErrorData.chain_len_eq]
  rw [packed_field0 _ _ _ (by omega) (by omega),
    packed_field1 _ _ _ (by omega) (by omega) (by omega),
    packed_field2 _ _ _ (by omega) (by omega) (by omega),
    packed_field3 _ _ _ (by omega) (by omega) (by omega)]
  rw [show d / 1048576 % 512 % 8 = d / 1048576 % 8 by omega,
    show d / 1048576 % 512 / 8 % 8 = d / 8388608 % 8 by omega,
    show d / 1048576 % 512 / 64 % 8 = d / 67108864 % 8 by omega,
    if_neg hci]
  split_ifs <;> omega

/-- Claim C7: starting from a record created empty by `new`, `n` successive
chains with valid link indices (0–6) give `chain_len = n` for `n ≤ 4` and
`chain_len = 4` from the fifth chain on — i.e. `chain_len` after folding the
chain operations is `min n 4`; and `chain_len` itself is the count of
contiguous non-zero link-index fields scanned from the front (4 when all four
are non-zero). -/
theorem C7_chain_len_monotone :
    (∀ (c : Nat) (l : List (Nat × Nat)), (∀ p ∈ l, p.2 ≤ 6) →
      ErrorData.chain_len
          (l.foldl (fun d p => ErrorData.chain d p.1 p.2) (ErrorData.new c)) =
        min l.length 4) ∧
    (∀ d : Nat, ErrorData.chain_len d =
      (([d / 1048576 % 8, d / 8388608 % 8, d / 67108864 % 8,
          d / 536870912 % 8].takeWhile (fun f => f != 0)).length)) := by
  constructor
  · have key : ∀ (l : List (Nat × Nat)), (∀ p ∈ l, p.2 ≤ 6) → ∀ d : Nat,
        ErrorData.chain_len (l.foldl (fun d p => ErrorData.chain d p.1 p.2) d) =
          min (ErrorData.chain_len d + l.length) 4 := by
      intro l
      induction l with
      | nil =>
        intro _ d
        have := chain_len_le_four d
        simp only [List.foldl_nil, List.length_nil, Nat.add_zero]
        omega
      | cons p rest ih =>
        intro h d
        have hp : p.2 ≤ 6 := h p (by simp)
        have hstep := chain_len_chain d p.1 p.2 (by omega)
        simp only [List.foldl_cons]
        rw [ih (fun q hq => h q (by simp [hq])) (ErrorData.chain d p.1 p.2), hstep]
        have := chain_len_le_four d
        simp only [List.length_cons]
        omega
    intro c l h
    rw [key l h (ErrorData.new c), chain_len_new]
    simp
  · intro d
    rw [ErrorData.chain_len_eq]
    by_cases f0 : d / 1048576 % 8 = 0
    · simp [f0, List.takeWhile]
    have t0 : (d / 1048576 % 8 != 0) = true := by simp [f0]
    by_cases f1 : d / 8388608 % 8 = 0
    · simp [f0, f1, t0, List.takeWhile]
    have t1 : (d / 8388608 % 8 != 0) = true := by simp [f1]
    by_cases f2 : d / 67108864 % 8 = 0
    · simp [f0, f1, f2, t0, t1, List.takeWhile]
    have t2 : (d / 67108864 % 8 != 0) = true := by simp [f2]
    by_cases f3 : d / 536870912 % 8 = 0
    · simp [f0, f1, f2, f3, t0, t1, t2, List.takeWhile]
    have t3 : (d / 536870912 % 8 != 0) = true := by simp [f3]
    simp [f0, f1, f2, f3, t0, t1, t2, t3, List.takeWhile]

/-! ## Totality and length bounds of the iteration (claim C8) -/

/-- Number of leading steps the iterator's formatter chain can survive: it
needs a pending next-formatter index and a remaining chain item for each
advance. -/
def breakIdx : Option Nat → List (Nat × Option Nat) → Nat
  | none, _ => 0
  | some _, [] => 0
  | some _, x :: r => 1 + breakIdx x.2 r

/-- The iteration emits at most one node plus one node per surviving advance. -/
theorem toList_length_le_break (E : Env) :
    ∀ (rest : List (Nat × Option Nat)) (fmt cc : Nat) (nfi : Option Nat),
      (ErrorIter.toList E fmt cc nfi rest).length ≤ 1 + breakIdx nfi rest := by
  intro rest
  induction rest with
  | nil =>
    intro fmt cc nfi
    rw [ErrorIter.toList]
    simp
  | cons x r ih =>
    intro fmt cc nfi
    obtain ⟨nec, nnfi⟩ := x
    rw [ErrorIter.toList]
    rcases hl : (format_chained E fmt 0 nfi).2.2 with _ | nf
    · simp
    · rcases nfi with _ | idx
      · exact absurd hl (by simp [format_chained, formatterLookup])
      · simp only [List.length_cons, breakIdx]
        have := ih nf nec nnfi
        omega

/-- The chain iterator emits at most 4 items when its `formatters` word is in
range. -/
theorem toList_length_le_four (ecs fmts : Nat) (h : fmts < 4096) :
    (ErrorDataChainIter.toList ecs fmts).length ≤ 4 := by
  rw [toList_spec _ _ h]
  split_ifs <;> simp

/-- The formatter chain of a record's iteration survives at most `chain_len`
advances. -/
theorem breakIdx_le_chain_len (d : Nat) :
    breakIdx (ErrorData.first_formatter_index d) (ErrorData.iterChain d) ≤
      ErrorData.chain_len d := by
  rw [ErrorData.first_formatter_index_eq, ErrorData.chain_len_eq]
  unfold ErrorData.iterChain
  rw [ErrorData.iter_chain_codes_eq, ErrorData.iter_chain_formatters_eq,
    toList_spec _ _ (by omega)]
  by_cases f0 : d / 1048576 % 8 = 0
  · rw [if_pos f0]
    simp [breakIdx]
  rw [if_neg f0, if_neg (show ¬ d / 1048576 % 4096 = 0 by omega),
    show d / 1048576 % 4096 / 8 % 8 = d / 8388608 % 8 by omega]
  by_cases f1 : d / 8388608 % 8 = 0
  · rw [if_pos f1]
    simp [breakIdx, optIdx]
    split_ifs <;> simp [breakIdx]
  rw [if_neg f1, if_neg (show ¬ d / 1048576 % 4096 / 8 = 0 by omega),
    show d / 1048576 % 4096 / 64 % 8 = d / 67108864 % 8 by omega]
  by_cases f2 : d / 67108864 % 8 = 0
  · rw [if_pos f2]
    simp [breakIdx, optIdx, f1]
    split_ifs <;> simp [breakIdx]
  rw [if_neg f2, if_neg (show ¬ d / 1048576 % 4096 / 64 = 0 by omega),
    show d / 1048576 % 4096 / 512 % 8 = d / 536870912 % 8 by omega]
  by_cases f3 : d / 536870912 % 8 = 0
  · rw [if_pos f3]
    simp [breakIdx, optIdx, f1, f2]
    split_ifs <;> simp [breakIdx]
  rw [if_neg f3, if_neg (show ¬ d / 1048576 % 4096 / 512 = 0 by omega)]
  simp [breakIdx, optIdx, f0, f1, f2, f3]

/-- Claim C8: iteration over any error value — including any `DynError`
reconstructed with `from_raw_parts` from an arbitrary 32-bit record whose
stored link indices may be out of bounds of the corresponding link tables —
is total and finite (it is a terminating function of the state by
construction): it yields at least one and at most `1 + chain_len` pairs,
never more than 5, truncating silently where either the stored record or a
category's link table runs out; and the typed `Error::iter` walk is the very
same walk started at the typed category's formatter. -/
theorem C8_iteration_total_bounded (E : Env) (e : DynError) :
    1 ≤ (DynError.iter E e).length ∧
    (DynError.iter E e).length ≤ 1 + ErrorData.chain_len e.error ∧
    (DynError.iter E e).length ≤ 5 ∧
    Error.iter E e.category_formatter e.error = DynError.iter E e := by
  have hble := toList_length_le_break E (ErrorData.iterChain e.error)
    e.category_formatter (ErrorData.code e.error)
    (ErrorData.first_formatter_index e.error)
  have hbrk := breakIdx_le_chain_len e.error
  have hlen := chain_len_le_four e.error
  refine ⟨?_, ?_, ?_, rfl⟩
  · unfold DynError.iter
    cases hiter : ErrorData.iterChain e.error with
    | nil =>
      rw [ErrorIter.toList]
      simp
    | cons x r =>
      obtain ⟨nec, nnfi⟩ := x
      rw [ErrorIter.toList]
      rcases (format_chained E e.category_formatter 0
          (ErrorData.first_formatter_index e.error)).2.2 with _ | nf <;> simp
  · unfold DynError.iter
    omega
  · unfold DynError.iter
    omega

/-- Unfolding of `optIdx` at a biased (non-zero) field. -/
theorem optIdx_succ (n : Nat) : optIdx (n + 1) = some n := by
  simp [optIdx]

/-- Unfolding of `optIdx` at an absent field. -/
theorem optIdx_zero : optIdx 0 = none := rfl

/-- One advancing step of the `ErrorIter` walk: with a pending index that
resolves in the current category's link table and a remaining chain item, the
iterator emits the current node and moves to the resolved formatter. -/
theorem ErrorIter.toList_cons_some (E : Env) (fmt cc idx nec : Nat)
    (nnfi : Option Nat) (rest : List (Nat × Option Nat)) (nf : Nat)
    (h : List.get? (E fmt).links idx = some nf) :
    ErrorIter.toList E fmt cc (some idx) ((nec, nnfi) :: rest) =
      (cc, ErrorCategoryHandle.ofCat E fmt) :: ErrorIter.toList E nf nec nnfi rest := by
  rw [ErrorIter.toList]
  simp only [format_chained, formatterLookup, Option.some_bind]
  rw [h]

/-- Terminal step of the `ErrorIter` walk: with no remaining chain item the
iterator emits the current node and stops. -/
theorem ErrorIter.toList_nil (E : Env) (fmt cc : Nat) (nfi : Option Nat) :
    ErrorIter.toList E fmt cc nfi [] = [(cc, ErrorCategoryHandle.ofCat E fmt)] := by
  rw [ErrorIter.toList]
  simp [format_chained]

/-- Claim C4: for a record built by chaining `c0 → c1 → c2 → c3` (newest
last) through the typed path — each step using the valid link index `jk ≤ 6`
at which the new category's link table holds the previous category — `iter()`
yields exactly `(c3, cat3), (c2, cat2), (c1, cat1), (c0, cat0)`, newest
first, where `catN` is the handle of `cN`'s category. -/
theorem C4_iteration_order (E : Env) (a0 a1 a2 a3 c0 c1 c2 c3 j1 j2 j3 : Nat)
    (hc0 : c0 < 16) (hc1 : c1 < 16) (hc2 : c2 < 16) (hc3 : c3 < 16)
    (hj1 : j1 ≤ 6) (hj2 : j2 ≤ 6) (hj3 : j3 ≤ 6)
    (hl1 : List.get? (E a1).links j1 = some a0)
    (hl2 : List.get? (E a2).links j2 = some a1)
    (hl3 : List.get? (E a3).links j3 = some a2) :
    Error.iter E a3
        (Error.chain (Error.chain (Error.chain (Error.new c0) c1 j1) c2 j2) c3 j3) =
      [(c3, ErrorCategoryHandle.ofCat E a3), (c2, ErrorCategoryHandle.ofCat E a2),
       (c1, ErrorCategoryHandle.ofCat E a1), (c0, ErrorCategoryHandle.ofCat E a0)] := by
  have hd : Error.chain (Error.chain (Error.chain (Error.new c0) c1 j1) c2 j2) c3 j3 =
      ((j1 + 1) * 64 + (j2 + 1) * 8 + (j3 + 1)) * 1048576 +
        (c0 * 4096 + c1 * 256 + c2 * 16 + c3) := by
    unfold Error.chain Error.new
    rw [ErrorData.new_eq, ErrorData.chain_eq, ErrorData.chain_eq, ErrorData.chain_eq]
    omega
  rw [hd]
  unfold Error.iter
  rw [ErrorData.code_eq, ErrorData.first_formatter_index_eq]
  unfold ErrorData.iterChain
  rw [ErrorData.iter_chain_codes_eq, ErrorData.iter_chain_formatters_eq,
    toList_spec _ _ (by omega)]
  rw [show (((j1 + 1) * 64 + (j2 + 1) * 8 + (j3 + 1)) * 1048576 +
      (c0 * 4096 + c1 * 256 + c2 * 16 + c3)) % 16 = c3 by omega,
    show (((j1 + 1) * 64 + (j2 + 1) * 8 + (j3 + 1)) * 1048576 +
      (c0 * 4096 + c1 * 256 + c2 * 16 + c3)) / 1048576 % 8 = j3 + 1 by omega,
    show (((j1 + 1) * 64 + (j2 + 1) * 8 + (j3 + 1)) * 1048576 +
      (c0 * 4096 + c1 * 256 + c2 * 16 + c3)) % 1048576 / 16 =
      c0 * 256 + c1 * 16 + c2 by omega,
    show (((j1 + 1) * 64 + (j2 + 1) * 8 + (j3 + 1)) * 1048576 +
      (c0 * 4096 + c1 * 256 + c2 * 16 + c3)) / 1048576 % 4096 =
      (j1 + 1) * 64 + (j2 + 1) * 8 + (j3 + 1) by omega]
  rw [if_neg (show ¬ j3 + 1 = 0 by omega),
    if_neg (show ¬ (j1 + 1) * 64 + (j2 + 1) * 8 + (j3 + 1) = 0 by omega),
    if_neg (show ¬ ((j1 + 1) * 64 + (j2 + 1) * 8 + (j3 + 1)) / 8 = 0 by omega),
    if_neg (show ¬ ((j1 + 1) * 64 + (j2 + 1) * 8 + (j3 + 1)) / 64 = 0 by omega),
    if_pos (show ((j1 + 1) * 64 + (j2 + 1) * 8 + (j3 + 1)) / 512 = 0 by omega)]
  rw [show ((j1 + 1) * 64 + (j2 + 1) * 8 + (j3 + 1)) / 8 % 8 = j2 + 1 by omega,
    show ((j1 + 1) * 64 + (j2 + 1) * 8 + (j3 + 1)) / 64 % 8 = j1 + 1 by omega,
    show ((j1 + 1) * 64 + (j2 + 1) * 8 + (j3 + 1)) / 512 % 8 = 0 by omega,
    show (c0 * 256 + c1 * 16 + c2) % 16 = c2 by omega,
    show (c0 * 256 + c1 * 16 + c2) / 16 % 16 = c1 by omega,
    show (c0 * 256 + c1 * 16 + c2) / 256 % 16 = c0 by omega]
  rw [optIdx_succ, optIdx_succ, optIdx_zero, show j3 + 1 - 1 = j3 by omega]
  rw [ErrorIter.toList_cons_some E a3 c3 j3 c2 (some j2) _ a2 hl3,
    ErrorIter.toList_cons_some E a2 c2 j2 c1 (some j1) _ a1 hl2,
    ErrorIter.toList_cons_some E a1 c1 j1 c0 none _ a0 hl1,
    ErrorIter.toList_nil]

/-! ## The end-to-end scenario (claim C6)

Category identities: 0 = `X`, 1 = `Y`, 2 = `Unused`.  Both categories use the
default variant-name rendering (`Err0` for code 0, `Err1` for code 1);
`Unused` has an empty formatter table, as its `chainable_category_formatters`
override returns the empty slice. -/

/-- The scenario under the spec's literal link assignment: the link table
`[Y, Unused, Unused, Unused, Unused, Unused]` sits on `X`, and `Y` is
unlinked (six `Unused` slots, the default `chainable_category_formatters`). -/
def envScenarioLiteral : Env := fun c =>
  match c with
  | 0 => ⟨"X", 0, [1, 2, 2, 2, 2, 2], fun n => if n = 0 then "Err0" else "Err1"⟩
  | 1 => ⟨"Y", 1, [2, 2, 2, 2, 2, 2], fun n => if n = 0 then "Err0" else "Err1"⟩
  | _ => ⟨"", 2, [], fun _ => ""⟩

/-- The scenario with the link table on `Y`, the chaining target: `Y`'s table
is `[X, Unused, Unused, Unused, Unused, Unused]` and `X` is unlinked. -/
def envScenario : Env := fun c =>
  match c with
  | 0 => ⟨"X", 0, [2, 2, 2, 2, 2, 2], fun n => if n = 0 then "Err0" else "Err1"⟩
  | 1 => ⟨"Y", 1, [0, 2, 2, 2, 2, 2], fun n => if n = 0 then "Err0" else "Err1"⟩
  | _ => ⟨"", 2, [], fun _ => ""⟩

/-- Claim C6, counterexample: under the spec's literal scenario — `X`
carrying the link table `[Y, Unused × 5]`, `Y` unlinked — the scenario's
chaining step cannot produce an error value at all.  `Y`'s link table does
not contain `X`'s formatter, so no compile-time `ChainError` impl exists for
the pair, and the type-erased `try_chain` rejects the chain, returning the
original erased `X::Err0` as `Err`; hence no chained record exists whose
debug text could be `"Y(1): Err1\n- X(0): Err0"`. -/
theorem C6_counterexample :
    (0 : Nat) ∉ (envScenarioLiteral 1).links ∧
    DynError.try_chain envScenarioLiteral (DynError.new 0 0) 1 1 =
      Except.error (DynError.new 0 0) := by
  constructor
  · decide
  · rfl

/-- Claim C6, amended: with the scenario's link table on `Y` (the chaining
target), i.e. `Y`'s table `[X, Unused × 5]`, starting from `X::Err0` (code 0)
and chaining `Y::Err1` (code 1) succeeds — `try_chain` yields exactly the
compile-time path's record, which uses link index 0 — and debug-formatting
the chained error (typed `Error`'s `Debug` delegates to `DynError`'s) yields
exactly the text `"Y(1): Err1\n- X(0): Err0"` under default variant-name
rendering. -/
theorem C6_amended :
    DynError.try_chain envScenario (DynError.new 0 0) 1 1 =
      Except.ok (Error.chain (Error.new 0) 1 0) ∧
    DynError.debugFmt envScenario
        (DynError.fromError 1 (Error.chain (Error.new 0) 1 0)) =
      "Y(1): Err1\n- X(0): Err0" := by
  constructor
  · rfl
  · have h1 : Error.chain (Error.new 0) 1 0 = 1048577 := by decide
    have hiter : ErrorData.iterChain 1048577 = [(0, none)] := by
      unfold ErrorData.iterChain
      rw [show ErrorData.iter_chain_codes 1048577 = 0 from rfl,
        show ErrorData.iter_chain_formatters 1048577 = 1 from rfl,
        ErrorDataChainIter.toList_step 0 1 (by decide),
        ErrorDataChainIter.toList_zero]
      norm_num
    rw [h1]
    unfold DynError.debugFmt DynError.fromError
    dsimp only
    rw [hiter]
    decide

/-! ## Witnesses

Concrete instantiations of the claim theorems that carry hypotheses.  The
record `1712403472` is the one built by `new 1` followed by the four chains
`(3,2), (4,0), (1,3), (0,0)` — a full, contiguous chain (the record of the
crate's own `chain2` test). -/

/-- Witness environment for the iteration-order claim: four categories in a
chain, `A3` links `A2` at index 0, `A2` links `A1` at index 1, `A1` links
`A0` at index 0. -/
def envChain : Env := fun c =>
  match c with
  | 0 => ⟨"A0", 0, [], fun _ => "v"⟩
  | 1 => ⟨"A1", 1, [0], fun _ => "v"⟩
  | 2 => ⟨"A2", 2, [9, 1], fun _ => "v"⟩
  | 3 => ⟨"A3", 3, [2], fun _ => "v"⟩
  | _ => ⟨"", 4, [], fun _ => ""⟩

/-- Witness for C1 at a concrete environment, category pair and record. -/
theorem C1_witness :
    DynError.try_chain envScenario (DynError.fromError 0 7) 1 1 =
      Except.ok (Error.chain 7 1 0) :=
  C1_static_dynamic_equivalence envScenario 0 1 0 7 1 (by decide) (by decide)
    (by intro j hj; omega)

/-- Witness for C2: chaining into the unlinked category `X` is rejected with
the original value. -/
theorem C2_witness :
    DynError.try_chain envScenario (DynError.new 0 5) 0 1 =
      Except.error (DynError.new 0 5) :=
  C2_unlinked_rejection envScenario (DynError.new 0 5) 0 1 (by decide)

/-- Witness for C3 on the full record of the crate's `chain2` test: pushing
a fifth entry evicts the oldest pair `(1, 2)`. -/
theorem C3_witness :
    (ErrorData.push_front 1712403472 7 0).2 = some (1, 2) := by
  have h := C3_push_front_eviction 1712403472 7 0 (by decide) (by decide)
  have h4 : ErrorData.chain_len 1712403472 = 4 := by decide
  rw [(h.2.2 h4).1]

/-- Witness for C4 on `envChain` with codes `5 → 6 → 7 → 8`. -/
theorem C4_witness :
    Error.iter envChain 3
        (Error.chain (Error.chain (Error.chain (Error.new 5) 6 0) 7 1) 8 0) =
      [(8, ErrorCategoryHandle.ofCat envChain 3), (7, ErrorCategoryHandle.ofCat envChain 2),
       (6, ErrorCategoryHandle.ofCat envChain 1), (5, ErrorCategoryHandle.ofCat envChain 0)] :=
  C4_iteration_order envChain 0 1 2 3 5 6 7 8 0 1 0 (by decide) (by decide)
    (by decide) (by decide) (by decide) (by decide) (by decide) (by decide)
    (by decide) (by decide)

/-- Witness for C5: in the strict configuration, chaining onto the full
record panics (models as `none`). -/
theorem C5_witness :
    ErrorData.chainCfg true 1712403472 7 0 = none :=
  (C5_overflow_policy 1712403472 7 0 (by decide)).1 (by decide)

/-- Witness for C7: five chains from an empty record leave `chain_len` at
`min 5 4`. -/
theorem C7_witness :
    ErrorData.chain_len
        (List.foldl (fun d p => ErrorData.chain d p.1 p.2) (ErrorData.new 1)
          [(3, 2), (4, 0), (1, 3), (0, 0), (7, 1)]) = min 5 4 :=
  C7_chain_len_monotone.1 1 [(3, 2), (4, 0), (1, 3), (0, 0), (7, 1)] (by decide)

/-- Witness for C9 on the full record: `set_code` returns the old code and
leaves the chain length unchanged. -/
theorem C9_witness :
    (ErrorData.set_code 1712403472 9).2 = ErrorData.code 1712403472 ∧
    ErrorData.chain_len (ErrorData.set_code 1712403472 9).1 =
      ErrorData.chain_len 1712403472 := by
  have h := C9_set_code_frame 1712403472 9 (by decide)
  exact ⟨h.2.2.2.2.2, h.1⟩

/-- Witness for C10: round trip through `Y` succeeds with the same record,
and converting an `X` error to `Y` fails with the original value. -/
theorem C10_witness :
    DynError.try_into envScenario (DynError.fromError 1 5) 1 = Except.ok 5 ∧
    DynError.try_into envScenario (DynError.new 0 3) 1 =
      Except.error (DynError.new 0 3) := by
  have h := C10_erase_unerase_roundtrip envScenario 1 5 (DynError.new 0 3)
  exact ⟨h.1, h.2.2 (by decide)⟩

end EEC
